import Mathlib

/-!
Shallow embedding of the pattern engine of `mygrep` (src/src/regex.rs).

Bytes are modelled as `Nat` (each a value in 0..255), byte slices as
`List Nat`.  Rust's `Result<usize, ()>` for matcher evaluation, together
with the possibility of a panic (`todo!()` / `unreachable!()`), is
modelled by the three-valued `EvalResult` / `ScanOutcome` / `ParseResult`
types: a panic is a separate outcome, not an error value.
-/

namespace Mygrep

/-- ASCII bytes of a string literal (all patterns in this development are
ASCII, where UTF-8 bytes and code points coincide). -/
def str_bytes (s : String) : List Nat :=
  s.data.map (fun c => c.toNat)

/-- The matcher-node taxonomy: one constructor per `RegexTrait`
implementor in regex.rs (`LiteralRegex`, `CharClassRegex`, `DotRegex`,
`ZeroOrOneRegex`, `ZeroOrMoreRegex`, `OneOrMoreRegex`, `IntervalRegex`).
`literal` and `charClass` store the raw byte slice handed to their
constructors. -/
inductive RNode where
  | literal (regex : List Nat)
  | charClass (regex : List Nat)
  | dot
  | zeroOrOne (child : RNode)
  | zeroOrMore (child : RNode)
  | oneOrMore (child : RNode)
  | interval (child : RNode) (atleast : Nat) (atmost : Nat)
deriving DecidableEq, Repr

/-- Outcome of `evaluate`: `Ok(n)`, `Err(())`, or a panic
(`todo!()` in `DotRegex::evaluate` / `CharClassRegex::evaluate`). -/
inductive EvalResult where
  | ok (n : Nat)
  | noMatch
  | panicked
deriving DecidableEq, Repr

/-- The loop of `LiteralRegex::evaluate`: compare `regex[i]` with
`data[start+i]`, failing on mismatch or running past the end of `data`;
on success return the number of bytes compared. -/
def literal_loop (data : List Nat) (start : Nat) : List Nat → Nat → EvalResult
  | [], i => EvalResult.ok i
  | r :: rest, i =>
    if start + i ≥ data.length ∨ data.getD (start + i) 0 ≠ r then EvalResult.noMatch
    else literal_loop data start rest (i + 1)

/-- The `while` loop shared by `ZeroOrMoreRegex::evaluate` and the tail
of `OneOrMoreRegex::evaluate`: while `start + count < data.len()`,
evaluate the child (treating failure as a zero-length step) and stop at
the first zero-length step.  `fuel` only bounds the recursion; it is
chosen `≥ data.length` at every call site, which makes the fuel-exhausted
branch coincide with the loop's exit condition. -/
def zero_or_more_loop (f : Nat → EvalResult) (dataLen start : Nat) : Nat → Nat → EvalResult
  | 0, count => EvalResult.ok count
  | fuel + 1, count =>
    if start + count < dataLen then
      match f (start + count) with
      | EvalResult.panicked => EvalResult.panicked
      | EvalResult.noMatch => EvalResult.ok count
      | EvalResult.ok 0 => EvalResult.ok count
      | EvalResult.ok (s + 1) => zero_or_more_loop f dataLen start fuel (count + (s + 1))
    else EvalResult.ok count

/-- First loop of `IntervalRegex::evaluate`: while data remains and
fewer than `atleast` iterations have run, evaluate the child and
propagate its failure (`?`).  `rem` counts the iterations still owed. -/
def interval_atleast_loop (f : Nat → EvalResult) (dataLen start : Nat) : Nat → Nat → EvalResult
  | 0, i => EvalResult.ok i
  | rem + 1, i =>
    if start + i < dataLen then
      match f (start + i) with
      | EvalResult.panicked => EvalResult.panicked
      | EvalResult.noMatch => EvalResult.noMatch
      | EvalResult.ok s => interval_atleast_loop f dataLen start rem (i + s)
    else EvalResult.ok i

/-- Second loop of `IntervalRegex::evaluate`: while data remains and
fewer than `atmost` further iterations have run, evaluate the child
(treating failure as a zero-length step) and stop at the first
zero-length step. -/
def interval_atmost_loop (f : Nat → EvalResult) (dataLen start : Nat) : Nat → Nat → EvalResult
  | 0, i => EvalResult.ok i
  | rem + 1, i =>
    if start + i < dataLen then
      match f (start + i) with
      | EvalResult.panicked => EvalResult.panicked
      | EvalResult.noMatch => EvalResult.ok i
      | EvalResult.ok 0 => EvalResult.ok i
      | EvalResult.ok (s + 1) => interval_atmost_loop f dataLen start rem (i + (s + 1))
    else EvalResult.ok i

/-- `RegexTrait::evaluate` for each node kind, translated from the
corresponding `impl RegexTrait for ...` block in regex.rs.
`DotRegex::evaluate` and `CharClassRegex::evaluate` are `todo!()` in the
source, i.e. they panic unconditionally. -/
def evaluate : RNode → List Nat → Nat → EvalResult
  | RNode.literal l, data, start => literal_loop data start l 0
  | RNode.charClass _, _, _ => EvalResult.panicked
  | RNode.dot, _, _ => EvalResult.panicked
  | RNode.zeroOrOne child, data, start =>
    match evaluate child data start with
    | EvalResult.ok n => EvalResult.ok n
    | EvalResult.noMatch => EvalResult.ok 0
    | EvalResult.panicked => EvalResult.panicked
  | RNode.zeroOrMore child, data, start =>
    zero_or_more_loop (fun s => evaluate child data s) data.length start data.length 0
  | RNode.oneOrMore child, data, start =>
    match evaluate child data start with
    | EvalResult.ok s =>
      zero_or_more_loop (fun k => evaluate child data k) data.length start data.length s
    | EvalResult.noMatch => EvalResult.noMatch
    | EvalResult.panicked => EvalResult.panicked
  | RNode.interval child atleast atmost, data, start =>
    match interval_atleast_loop (fun s => evaluate child data s) data.length start atleast 0 with
    | EvalResult.ok i =>
      interval_atmost_loop (fun s => evaluate child data s) data.length start atmost i
    | EvalResult.noMatch => EvalResult.noMatch
    | EvalResult.panicked => EvalResult.panicked

/-- The loop of `Regex::evaluate` (the `Sequence`): before every node,
fail if the running offset has reached the end of `data`; then evaluate
the node there and add its length (`?` propagates failure). -/
def regex_eval_list : List RNode → List Nat → Nat → Nat → EvalResult
  | [], _, _, i => EvalResult.ok i
  | e :: rest, data, start, i =>
    if start + i ≥ data.length then EvalResult.noMatch
    else
      match evaluate e data (start + i) with
      | EvalResult.ok n => regex_eval_list rest data start (i + n)
      | EvalResult.noMatch => EvalResult.noMatch
      | EvalResult.panicked => EvalResult.panicked

/-- The compiled `Regex` (`Sequence`): an ordered node list. -/
structure Regex where
  expr_list : List RNode
deriving DecidableEq, Repr

/-- `Regex::evaluate`. -/
def Regex.evaluate (r : Regex) (data : List Nat) (start : Nat) : EvalResult :=
  regex_eval_list r.expr_list data start 0

/-- `get_locale`: `env::var("LC_ALL").or(env::var("LC_CTYPE")).ok()`.
The two environment values are passed in explicitly as `Option String`
(absence of the variable modelled as `none`). -/
def get_locale (lc_all lc_ctype : Option String) : Option String :=
  match lc_all with
  | some l => some l
  | none => lc_ctype

/-- `is_locale_c`: true exactly when the effective locale equals "C". -/
def is_locale_c (lc_all lc_ctype : Option String) : Bool :=
  match get_locale lc_all lc_ctype with
  | some l => decide (l = "C")
  | none => false

/-- `ParseState` from regex.rs.  The `stack` of byte offsets is modelled
head-as-top (Rust pushes/pops at the `Vec`'s end). -/
structure ParseState where
  character_class_parsing_in_progress : Bool
  literal_string_in_progress : Bool
  stack : List Nat
  literal_string : List Nat
  caret_anchor_present : Bool
  dollar_anchor_present : Bool
  backslash_present : Bool
  interval_expr_parsing_in_progress : Bool
deriving DecidableEq, Repr

/-- `ParseState::default()`: all flags false, both vectors empty. -/
def ParseState.default : ParseState :=
  ⟨false, false, [], [], false, false, false, false⟩

/-- One byte of a UTF-8 continuation sequence (0x80–0xBF). -/
def is_cont (b : Nat) : Bool :=
  decide (128 ≤ b ∧ b ≤ 191)

/-- UTF-8 validity of a byte slice, as checked by
`str::from_utf8` on the interval-expression body. -/
def is_valid_utf8 : List Nat → Bool
  | [] => true
  | b :: rest =>
    if b ≤ 127 then is_valid_utf8 rest
    else if 194 ≤ b ∧ b ≤ 223 then
      match rest with
      | c1 :: rest2 => is_cont c1 && is_valid_utf8 rest2
      | [] => false
    else if b = 224 then
      match rest with
      | c1 :: c2 :: rest2 => decide (160 ≤ c1 ∧ c1 ≤ 191) && is_cont c2 && is_valid_utf8 rest2
      | _ => false
    else if 225 ≤ b ∧ b ≤ 236 then
      match rest with
      | c1 :: c2 :: rest2 => is_cont c1 && is_cont c2 && is_valid_utf8 rest2
      | _ => false
    else if b = 237 then
      match rest with
      | c1 :: c2 :: rest2 => decide (128 ≤ c1 ∧ c1 ≤ 159) && is_cont c2 && is_valid_utf8 rest2
      | _ => false
    else if 238 ≤ b ∧ b ≤ 239 then
      match rest with
      | c1 :: c2 :: rest2 => is_cont c1 && is_cont c2 && is_valid_utf8 rest2
      | _ => false
    else if b = 240 then
      match rest with
      | c1 :: c2 :: c3 :: rest2 =>
        decide (144 ≤ c1 ∧ c1 ≤ 191) && is_cont c2 && is_cont c3 && is_valid_utf8 rest2
      | _ => false
    else if 241 ≤ b ∧ b ≤ 243 then
      match rest with
      | c1 :: c2 :: c3 :: rest2 => is_cont c1 && is_cont c2 && is_cont c3 && is_valid_utf8 rest2
      | _ => false
    else if b = 244 then
      match rest with
      | c1 :: c2 :: c3 :: rest2 =>
        decide (128 ≤ c1 ∧ c1 ≤ 143) && is_cont c2 && is_cont c3 && is_valid_utf8 rest2
      | _ => false
    else false

/-- `usize::MAX`, the unbounded upper interval bound. -/
def USIZE_MAX : Nat := 2 ^ 64 - 1

/-- Accumulate decimal digits as `usize::from_str_radix(_, 10)` does,
failing on a non-digit byte or on overflow past `usize::MAX`. -/
def digits_value : List Nat → Nat → Option Nat
  | [], acc => some acc
  | b :: rest, acc =>
    if 48 ≤ b ∧ b ≤ 57 then
      let acc2 := acc * 10 + (b - 48)
      if acc2 ≤ USIZE_MAX then digits_value rest acc2 else none
    else none

/-- `usize::from_str_radix(s, 10)`: an optional leading `+` (43), then at
least one decimal digit; a leading `-` (45) or an empty digit string
fails. -/
def from_str_radix10 (s : List Nat) : Option Nat :=
  match s with
  | [] => none
  | 43 :: rest =>
    match rest with
    | [] => none
    | _ => digits_value rest 0
  | 45 :: _ => none
  | _ => digits_value s 0

/-- `str::split(',')` at byte level (on valid UTF-8 the comma byte 44
only occurs as the character `,`). -/
def split_on_comma : List Nat → List (List Nat)
  | [] => [[]]
  | 44 :: rest => [] :: split_on_comma rest
  | b :: rest =>
    match split_on_comma rest with
    | h :: t => (b :: h) :: t
    | [] => [[b]]

/-- `RegexBuilder::create_literal_regex`: append a `Literal` node. -/
def create_literal_regex (nodes : List RNode) (expr : List Nat) : List RNode :=
  nodes ++ [RNode.literal expr]

/-- `RegexBuilder::create_char_class_regex`: append a `CharClass` node. -/
def create_char_class_regex (nodes : List RNode) (expr : List Nat) : List RNode :=
  nodes ++ [RNode.charClass expr]

/-- `RegexBuilder::create_dot_regex`: append a `Wildcard` node. -/
def create_dot_regex (nodes : List RNode) : List RNode :=
  nodes ++ [RNode.dot]

/-- The shared shape of `create_zero_or_one_regex`,
`create_zero_or_more_regex`, `create_one_or_more_regex` and
`create_interval_expr_regex`: pop the last node and push its wrapper;
`none` models the `unreachable!()` panic on an empty node list. -/
def wrap_last (f : RNode → RNode) (nodes : List RNode) : Option (List RNode) :=
  match nodes.getLast? with
  | none => none
  | some last => some (nodes.dropLast ++ [f last])

/-- Outcome of one scanner step or of the whole scan: the updated state
and node list, an `Err(())` return, or a panic. -/
inductive ScanOutcome where
  | ok (st : ParseState) (nodes : List RNode)
  | error
  | panicked
deriving DecidableEq, Repr

/-- The flush prefixed to the `.`, `?`, `*` and `+` arms: if a literal
run is in progress, append it as a `Literal` node and clear it. -/
def flush_literal (st : ParseState) (nodes : List RNode) : ParseState × List RNode :=
  if st.literal_string_in_progress then
    ({ st with literal_string := [], literal_string_in_progress := false },
      create_literal_regex nodes st.literal_string)
  else (st, nodes)

/-- The literal fallback taken for a malformed-but-terminated interval
body: mark a literal run in progress (clearing the run only if none was
in progress) and append the interval body bytes (braces excluded). -/
def interval_fallback (st : ParseState) (islice : List Nat) : ParseState :=
  { st with
    literal_string_in_progress := true,
    literal_string :=
      (if st.literal_string_in_progress then st.literal_string else []) ++ islice }

/-- The `'}'` arm of the scanner: close the interval expression, slice
out its body `expr[start+1..i]`, require it to be valid UTF-8, and
either fall back to literal text or wrap the last node in an
`Interval`. -/
def handle_interval_close (expr : List Nat) (i : Nat) (st : ParseState)
    (nodes : List RNode) : ScanOutcome :=
  let st0 := { st with interval_expr_parsing_in_progress := false }
  match st0.stack with
  | [] => ScanOutcome.panicked
  | start :: rest =>
    let st1 := { st0 with stack := rest }
    let islice := (expr.drop (start + 1)).take (i - (start + 1))
    if ¬ is_valid_utf8 islice then ScanOutcome.error
    else if islice = [] then ScanOutcome.ok (interval_fallback st1 islice) nodes
    else
      let parts := split_on_comma islice
      let first := parts.headD []
      let first_num := from_str_radix10 first
      if 0 < first.length ∧ first_num = none then
        ScanOutcome.ok (interval_fallback st1 islice) nodes
      else
        match parts.get? 1 with
        | none =>
          match first_num with
          | none => ScanOutcome.ok (interval_fallback st1 islice) nodes
          | some n =>
            match wrap_last (fun r => RNode.interval r n n) nodes with
            | none => ScanOutcome.panicked
            | some nodes2 => ScanOutcome.ok st1 nodes2
        | some second =>
          let second_num := from_str_radix10 second
          if (0 < second.length ∧ second_num = none) ∨
              (first_num = none ∧ second_num = none) then
            ScanOutcome.ok (interval_fallback st1 islice) nodes
          else
            match wrap_last
                (fun r => RNode.interval r (first_num.getD 0) (second_num.getD USIZE_MAX))
                nodes with
            | none => ScanOutcome.panicked
            | some nodes2 => ScanOutcome.ok st1 nodes2

/-- One iteration of the scanner's `match expr[i] as char` (byte `c` is
`expr[i]`), with the arms in source order. -/
def parse_step (expr : List Nat) (i : Nat) (c : Nat) (st : ParseState)
    (nodes : List RNode) : ScanOutcome :=
  if c = 91 then
    if ¬ st.character_class_parsing_in_progress then
      ScanOutcome.ok
        { st with character_class_parsing_in_progress := true, stack := i :: st.stack } nodes
    else ScanOutcome.ok st nodes
  else if c = 93 ∧ st.character_class_parsing_in_progress then
    match st.stack with
    | [] => ScanOutcome.panicked
    | start :: rest =>
      if rest.length = 0 then
        if i - start = 1 then
          ScanOutcome.ok
            { st with
              stack := start :: rest,
              literal_string :=
                (if st.literal_string_in_progress then st.literal_string else []) ++ [93] }
            nodes
        else
          ScanOutcome.ok
            { st with character_class_parsing_in_progress := false, stack := rest }
            (create_char_class_regex nodes ((expr.drop start).take (i + 1 - start)))
      else ScanOutcome.ok { st with stack := rest } nodes
  else if c = 94 ∧ i = 0 then
    ScanOutcome.ok { st with caret_anchor_present := true } nodes
  else if c = 36 ∧ i = expr.length - 1 then
    ScanOutcome.ok { st with dollar_anchor_present := true } nodes
  else if c = 92 ∧ ¬ st.backslash_present then
    ScanOutcome.ok { st with backslash_present := true } nodes
  else if c = 46 ∧ ¬ st.character_class_parsing_in_progress ∧ ¬ st.backslash_present then
    let p := flush_literal st nodes
    ScanOutcome.ok p.1 (create_dot_regex p.2)
  else if c = 63 ∧ ¬ st.character_class_parsing_in_progress ∧ ¬ st.backslash_present then
    let p := flush_literal st nodes
    match wrap_last RNode.zeroOrOne p.2 with
    | none => ScanOutcome.panicked
    | some nodes2 => ScanOutcome.ok p.1 nodes2
  else if c = 42 ∧ ¬ st.character_class_parsing_in_progress ∧ ¬ st.backslash_present then
    let p := flush_literal st nodes
    match wrap_last RNode.zeroOrMore p.2 with
    | none => ScanOutcome.panicked
    | some nodes2 => ScanOutcome.ok p.1 nodes2
  else if c = 43 ∧ ¬ st.character_class_parsing_in_progress ∧ ¬ st.backslash_present then
    let p := flush_literal st nodes
    match wrap_last RNode.oneOrMore p.2 with
    | none => ScanOutcome.panicked
    | some nodes2 => ScanOutcome.ok p.1 nodes2
  else if c = 123 ∧ ¬ st.character_class_parsing_in_progress ∧ ¬ st.backslash_present then
    ScanOutcome.ok
      { st with interval_expr_parsing_in_progress := true, stack := i :: st.stack } nodes
  else if c = 125 ∧ ¬ st.character_class_parsing_in_progress ∧ ¬ st.backslash_present ∧
      st.interval_expr_parsing_in_progress then
    handle_interval_close expr i st nodes
  else
    let p :=
      if ¬ st.literal_string_in_progress then
        (create_literal_regex nodes st.literal_string,
          { st with literal_string := ([] : List Nat) })
      else (nodes, st)
    ScanOutcome.ok
      { p.2 with
        literal_string_in_progress := true,
        literal_string := p.2.literal_string ++ [c] }
      p.1

/-- The scanner's `while i < expr.len()` loop, one byte per step. -/
def parse_loop (expr : List Nat) : List Nat → Nat → ParseState → List RNode → ScanOutcome
  | [], _, st, nodes => ScanOutcome.ok st nodes
  | c :: rest, i, st, nodes =>
    match parse_step expr i c st nodes with
    | ScanOutcome.ok st2 nodes2 => parse_loop expr rest (i + 1) st2 nodes2
    | ScanOutcome.error => ScanOutcome.error
    | ScanOutcome.panicked => ScanOutcome.panicked

/-- Outcome of `parse_regex`: `Ok(regex)`, `Err(())`, or a panic. -/
inductive ParseResult where
  | ok (r : Regex)
  | error
  | panicked
deriving DecidableEq, Repr

/-- `parse_regex` from regex.rs: locale gate, then the scan, then
`Ok(regex_builder.build())` — note there is no end-of-scan flush and no
unterminated-construct check in the source. -/
def parse_regex (lc_all lc_ctype : Option String) (expr : List Nat) : ParseResult :=
  if is_locale_c lc_all lc_ctype then
    match parse_loop expr expr 0 ParseState.default [] with
    | ScanOutcome.ok _ nodes => ParseResult.ok ⟨nodes⟩
    | ScanOutcome.error => ParseResult.error
    | ScanOutcome.panicked => ParseResult.panicked
  else ParseResult.error

/-! ## Helper lemmas -/

/-- A successful `LiteralRegex` match consumes exactly the literal's
length (plus whatever index the loop started at). -/
theorem literal_loop_ok_length (data : List Nat) (start : Nat) :
    ∀ l i k, literal_loop data start l i = EvalResult.ok k → k = i + l.length := by
  intro l
  induction l with
  | nil =>
    intro i k h
    simp only [literal_loop] at h
    cases h
    simp
  | cons r rest ih =>
    intro i k h
    simp only [literal_loop] at h
    split at h
    · cases h
    · have := ih (i + 1) k h
      simp [this]
      omega

/-- Iteration bound for the mandatory phase of `IntervalRegex`: if every
successful child match has length at most `L`, a run of `rem` owed
iterations starting from accumulated length `i` ends at most at
`i + rem * L`. -/
theorem interval_atleast_loop_bound (f : Nat → EvalResult) (len start L : Nat)
    (hf : ∀ s k, f s = EvalResult.ok k → k ≤ L) :
    ∀ rem i j, interval_atleast_loop f len start rem i = EvalResult.ok j → j ≤ i + rem * L := by
  intro rem
  induction rem with
  | zero =>
    intro i j h
    simp only [interval_atleast_loop] at h
    cases h
    simp
  | succ rem ih =>
    intro i j h
    simp only [interval_atleast_loop] at h
    split at h
    · cases hfe : f (start + i) with
      | panicked => rw [hfe] at h; cases h
      | noMatch => rw [hfe] at h; cases h
      | ok s =>
        rw [hfe] at h
        have hs := hf _ _ hfe
        have hj := ih (i + s) j h
        have hm : (rem + 1) * L = rem * L + L := Nat.succ_mul rem L
        omega
    · cases h
      have hm : (rem + 1) * L = rem * L + L := Nat.succ_mul rem L
      omega

/-- Iteration bound for the optional phase of `IntervalRegex`:
analogous to `interval_atleast_loop_bound`. -/
theorem interval_atmost_loop_bound (f : Nat → EvalResult) (len start L : Nat)
    (hf : ∀ s k, f s = EvalResult.ok k → k ≤ L) :
    ∀ rem i j, interval_atmost_loop f len start rem i = EvalResult.ok j → j ≤ i + rem * L := by
  intro rem
  induction rem with
  | zero =>
    intro i j h
    simp only [interval_atmost_loop] at h
    cases h
    simp
  | succ rem ih =>
    intro i j h
    simp only [interval_atmost_loop] at h
    split at h
    · cases hfe : f (start + i) with
      | panicked => rw [hfe] at h; cases h
      | noMatch =>
        rw [hfe] at h
        cases h
        simp
      | ok s =>
        rw [hfe] at h
        cases s with
        | zero =>
          cases h
          simp
        | succ s =>
          have hs := hf _ _ hfe
          have hj := ih (i + (s + 1)) j h
          have hm : (rem + 1) * L = rem * L + L := Nat.succ_mul rem L
          omega
    · cases h
      have hm : (rem + 1) * L = rem * L + L := Nat.succ_mul rem L
      omega

/-! ## Claim theorems -/

/-- Claim C1 (code bug): compiling "test{0,1}" succeeds, but because the
scanner never flushes the pending literal run "test" before wrapping,
the interval wraps an empty `Literal` node and evaluating the compiled
Sequence against "testtest" at offset 0 returns `Ok(0)`, not the `Ok(4)`
that the claim (and the repository's own `test_interval_regex`)
requires. -/
theorem c1_interval_pattern_code_bug :
    parse_regex (some "C") none (str_bytes "test\x7b0,1\x7d") =
      ParseResult.ok ⟨[RNode.interval (RNode.literal []) 0 1]⟩ ∧
    Regex.evaluate ⟨[RNode.interval (RNode.literal []) 0 1]⟩ (str_bytes "testtest") 0 =
      EvalResult.ok 0 ∧
    EvalResult.ok 0 ≠ EvalResult.ok 4 := by decide

/-- Claim C2 (code bug): compiling "test literal" succeeds, but the
trailing literal run is never flushed into a `Literal` node, so the
compiled Sequence is a single empty `Literal` node: evaluating it
against "test literal" at offset 0 yields `Ok(0)` instead of the claimed
matched length 12, and against "test non matching literal" it also
yields `Ok(0)` instead of the claimed no-match. -/
theorem c2_literal_pattern_code_bug :
    parse_regex (some "C") none (str_bytes "test literal") =
      ParseResult.ok ⟨[RNode.literal []]⟩ ∧
    Regex.evaluate ⟨[RNode.literal []]⟩ (str_bytes "test literal") 0 = EvalResult.ok 0 ∧
    Regex.evaluate ⟨[RNode.literal []]⟩ (str_bytes "test non matching literal") 0 =
      EvalResult.ok 0 := by decide

/-- Claim C3 counterexample: "[abc" leaves a bracket expression open at
end of scan, yet compilation under the "C" locale succeeds (with a
single empty `Literal` node), contradicting the claim that it must fail
with a `ParseError`. -/
theorem c3_counterexample_open_bracket_compiles :
    parse_regex (some "C") none (str_bytes "[abc") = ParseResult.ok ⟨[RNode.literal []]⟩ := by
  decide

/-- Claim C3 as amended: `parse_regex` performs no end-of-scan check at
all: a still-open bracket expression ("[abc"), a still-open interval
expression ("a{1") and a still-pending escape flag ("a\\") are silently
ignored and compilation succeeds for each of these patterns. -/
theorem c3_amended_no_end_of_scan_check :
    parse_regex (some "C") none (str_bytes "[abc") = ParseResult.ok ⟨[RNode.literal []]⟩ ∧
    parse_regex (some "C") none (str_bytes "a\x7b1") = ParseResult.ok ⟨[RNode.literal []]⟩ ∧
    parse_regex (some "C") none (str_bytes "a\\") = ParseResult.ok ⟨[RNode.literal []]⟩ := by
  decide

/-- Claim C4 (code bug): `DotRegex::evaluate` and
`CharClassRegex::evaluate` are `todo!()` stubs: the pattern "."
compiles into a single `Wildcard` node, and evaluating that Sequence
against "a" at offset 0 panics (a third outcome) instead of returning
the claimed length-1 match; a `CharClass` node panics likewise. -/
theorem c4_wildcard_charclass_todo_code_bug :
    parse_regex (some "C") none (str_bytes ".") = ParseResult.ok ⟨[RNode.dot]⟩ ∧
    Regex.evaluate ⟨[RNode.dot]⟩ (str_bytes "a") 0 = EvalResult.panicked ∧
    Regex.evaluate ⟨[RNode.charClass (str_bytes "[ab]")]⟩ (str_bytes "a") 0 =
      EvalResult.panicked := by decide

/-- Claim C5 counterexample: for `Interval(Literal "a", 1, 2)` on
"aaaa", every successful child iteration contributes length 1, and the
node returns `Ok(3)`: three contributing iterations, exceeding
`at_most = 2`, contradicting the claim that at most
`at_most - at_least = 1` additional iteration runs after the mandatory
phase. -/
theorem c5_counterexample_interval_overrun :
    evaluate (RNode.interval (RNode.literal [97]) 1 2) [97, 97, 97, 97] 0 =
      EvalResult.ok 3 ∧ 2 < 3 := by decide

/-- Claim C5 as amended: the optional phase of an `Interval` node runs
up to `at_most` additional child iterations (its counter is not offset
by the `at_least` mandatory iterations), and the mandatory phase stops
without failing when the offset reaches the end of the data; hence, when
every successful child match has length at most `L`, a successful
evaluation of `Interval(child, at_least, at_most)` returns a length of
at most `(at_least + at_most) * L` — not `at_most * L`. -/
theorem c5_amended_interval_bound (child : RNode) (data : List Nat)
    (start a m L n : Nat)
    (hf : ∀ s k, evaluate child data s = EvalResult.ok k → k ≤ L)
    (h : evaluate (RNode.interval child a m) data start = EvalResult.ok n) :
    n ≤ (a + m) * L := by
  simp only [evaluate] at h
  cases h1 : interval_atleast_loop (fun s => evaluate child data s) data.length start a 0 with
  | ok i =>
    rw [h1] at h
    have hi : i ≤ 0 + a * L :=
      interval_atleast_loop_bound _ _ _ _ (fun s k hk => hf s k hk) a 0 i h1
    have hn : n ≤ i + m * L :=
      interval_atmost_loop_bound _ _ _ _ (fun s k hk => hf s k hk) m i n h
    have hm : (a + m) * L = a * L + m * L := Nat.add_mul a m L
    omega
  | noMatch => rw [h1] at h; cases h
  | panicked => rw [h1] at h; cases h

/-- Witness for C5: at `child = Literal "a"`, `data = "aaaa"`,
`at_least = 1`, `at_most = 2`, `L = 1`, the node evaluates to `Ok(3)`
and the amended bound `3 ≤ (1 + 2) * 1` is attained exactly. -/
theorem c5_amended_interval_bound_witness :
    evaluate (RNode.interval (RNode.literal [97]) 1 2) [97, 97, 97, 97] 0 =
      EvalResult.ok 3 ∧ 3 ≤ (1 + 2) * 1 := by
  refine ⟨by decide, ?_⟩
  refine c5_amended_interval_bound (RNode.literal [97]) [97, 97, 97, 97] 0 1 2 1 3 ?_ (by decide)
  intro s k hk
  have hlen : k = 1 := by
    simpa using literal_loop_ok_length [97, 97, 97, 97] s [97] 0 k (by simpa [evaluate] using hk)
  omega

/-- Claim C6 counterexample: "a{x}" compiles successfully, but its
compiled form is a single empty `Literal` node which matches the text
"a{x}" with length 0, not the claimed verbatim match of the entire
4-byte literal text. -/
theorem c6_counterexample_malformed_interval :
    parse_regex (some "C") none (str_bytes "a\x7bx\x7d") = ParseResult.ok ⟨[RNode.literal []]⟩ ∧
    Regex.evaluate ⟨[RNode.literal []]⟩ (str_bytes "a\x7bx\x7d") 0 = EvalResult.ok 0 ∧
    EvalResult.ok 0 ≠ EvalResult.ok 4 := by decide

/-- Claim C6 as amended: a terminated-but-invalid interval body is not
an error — "a{x}" compiles successfully — but the fallback appends only
the interval body (braces excluded) to the pending literal run, whose
body byte was already accumulated by the default branch (leaving the run
"axx"), and the run is never flushed, so the compiled Sequence is the
single empty `Literal` node appended when the run started. -/
theorem c6_amended_malformed_interval_fallback :
    parse_loop (str_bytes "a\x7bx\x7d") (str_bytes "a\x7bx\x7d") 0 ParseState.default [] =
      ScanOutcome.ok ⟨false, true, [], [97, 120, 120], false, false, false, false⟩
        [RNode.literal []] := by decide

/-- Claim C7 (confirmed): with the effective locale
(`LC_ALL` overriding `LC_CTYPE`) different from "C" — including both
absent — `parse_regex` fails for every pattern, the empty one included,
and no `Regex` is constructed; with the effective locale equal to "C"
the gate lets compilation proceed (on the empty pattern it returns the
empty Sequence). -/
theorem c7_locale_gate (lc_all lc_ctype : Option String) (expr : List Nat) :
    (get_locale lc_all lc_ctype ≠ some "C" →
      parse_regex lc_all lc_ctype expr = ParseResult.error) ∧
    (get_locale lc_all lc_ctype = some "C" →
      parse_regex lc_all lc_ctype [] = ParseResult.ok ⟨[]⟩) := by
  constructor
  · intro h
    have hb : is_locale_c lc_all lc_ctype = false := by
      unfold is_locale_c
      cases hg : get_locale lc_all lc_ctype with
      | none => rfl
      | some l =>
        simp only [decide_eq_false_iff_not]
        intro hl
        exact h (by rw [hg, hl])
    simp [parse_regex, hb]
  · intro h
    have hb : is_locale_c lc_all lc_ctype = true := by
      unfold is_locale_c
      rw [h]
      simp
    simp [parse_regex, hb, parse_loop]

/-- Witness for C7: `LC_ALL=ja_JP` rejects the one-byte pattern "a",
and `LC_ALL=C` (despite `LC_CTYPE=X`) compiles the empty pattern. -/
theorem c7_locale_gate_witness :
    parse_regex (some "ja_JP") none [97] = ParseResult.error ∧
    parse_regex (some "C") (some "X") [] = ParseResult.ok ⟨[]⟩ := by
  constructor
  · exact (c7_locale_gate (some "ja_JP") none [97]).1 (by decide)
  · exact (c7_locale_gate (some "C") (some "X") []).2 (by decide)

/-- Claim C8 counterexample: in "a\\.b." the compiled Sequence is a
single empty `Literal` node — in particular it contains no `Wildcard`
node, so the second '.' did not compile as a `Wildcard` as the claim
requires. -/
theorem c8_counterexample_escape_not_consumed :
    parse_regex (some "C") none (str_bytes "a\\.b.") =
      ParseResult.ok ⟨[RNode.literal []]⟩ ∧
    RNode.dot ∉ [RNode.literal ([] : List Nat)] := by decide

/-- Claim C8 as amended: a backslash sets the escape flag, but the flag
is never cleared afterwards: in "a\\.b." both '.' bytes (and everything
after the backslash) are routed to the literal-run accumulator, the scan
ends with the flag still set and the run "a.b." pending and unflushed,
and the compiled Sequence is the single empty `Literal` node with no
`Wildcard` in it. -/
theorem c8_amended_escape_flag_sticky :
    parse_loop (str_bytes "a\\.b.") (str_bytes "a\\.b.") 0 ParseState.default [] =
      ScanOutcome.ok ⟨false, true, [], [97, 46, 98, 46], false, false, true, false⟩
        [RNode.literal []] := by decide

/-- Claim C9 counterexample: "[]a]" compiles successfully, but the
resulting Sequence has two nodes — a stray `Literal "]"` followed by the
`CharClass` node — not a sole character-class node. -/
theorem c9_counterexample_bracket_first_member :
    parse_regex (some "C") none (str_bytes "[]a]") =
      ParseResult.ok ⟨[RNode.literal [93], RNode.charClass [91, 93, 97, 93]]⟩ ∧
    [RNode.literal [93], RNode.charClass [91, 93, 97, 93]].length ≠ 1 := by decide

/-- Claim C9 as amended: in "[]a]" the ']' immediately after '[' is
taken as a literal class member, not a terminator: the class is closed
at the final ']' and its stored spec is the full slice "[]a]" (covering
both ']' and 'a', neither empty nor unterminated) — but the scanner's
bookkeeping also emits a preceding stray `Literal "]"` node and leaves
the pending literal "a" unflushed, so the Sequence is not a sole
character-class node. -/
theorem c9_amended_bracket_first_member :
    parse_loop (str_bytes "[]a]") (str_bytes "[]a]") 0 ParseState.default [] =
      ScanOutcome.ok ⟨false, true, [], [97], false, false, false, false⟩
        [RNode.literal [93], RNode.charClass [91, 93, 97, 93]] := by decide

/-- Claim C10 counterexample: the whole-pattern "{1}" does not panic:
it compiles successfully, because the body byte '1' first appends an
empty `Literal` node via the default branch, which the interval then
wraps. -/
theorem c10_counterexample_interval_alone_compiles :
    parse_regex (some "C") none (str_bytes "\x7b1\x7d") =
      ParseResult.ok ⟨[RNode.interval (RNode.literal []) 1 1]⟩ ∧
    parse_regex (some "C") none (str_bytes "\x7b1\x7d") ≠ ParseResult.panicked := by decide

/-- Claim C10 as amended: under the "C" locale the one-byte quantifier
patterns "?", "*" and "+" panic via `unreachable!()` when the builder
pops the empty node list, returning neither a Sequence nor an error;
but "{1}" as an entire pattern does not panic — its digit byte appends
an empty `Literal` node before the '}' is handled, so the interval
wraps that node and compilation succeeds. -/
theorem c10_amended_leading_quantifier_panics :
    parse_regex (some "C") none (str_bytes "?") = ParseResult.panicked ∧
    parse_regex (some "C") none (str_bytes "*") = ParseResult.panicked ∧
    parse_regex (some "C") none (str_bytes "+") = ParseResult.panicked ∧
    parse_regex (some "C") none (str_bytes "\x7b1\x7d") =
      ParseResult.ok ⟨[RNode.interval (RNode.literal []) 1 1]⟩ := by decide

end Mygrep
